import Mathlib

/-!
# Verification of the mole-go FRP supervisor core

Shallow embedding of the process-supervision and configuration-synchronization
engine of the `mole-go` repository (`frpc_res_darwin.go` and platform twins),
together with proofs of the testable properties stated in its specification.

The embedding covers:
* the data model (`UserConfig`, `ProxyRule`, `ServiceStatus`);
* the runtime-config generator `generateFrpcToml`;
* the configuration store (`SaveUserConfig` / `loadConfigFromDisk`) over an
  explicit TOML value model mirroring the struct tags (including `omitempty`);
* the log aggregator (`flushLogs` / `emitLog`);
* the process supervisor (`startFrp` / `stopFrp` / `Disconnect` and the
  exit-waiter), with the Go `sync.Mutex` modelled explicitly as a
  non-reentrant lock so that lock-acquisition behaviour is visible.

Effectful Go code is modelled by explicit state passing: filesystem write
results, kill results and spawn results are injected as parameters, and the
functions return the new supervisor state plus their observable outcome.
-/

namespace Mole

/-! ## Data model (`UserConfig`, `ProxyRule`) -/

/-- The anonymous `Server` struct nested in `UserConfig`:
`{addr, port, token, remark, autoStart}`. -/
structure ServerConfig where
  addr : String
  port : Int
  token : String
  remark : String
  autoStart : Bool
  deriving Repr, DecidableEq

/-- `ProxyRule`: one tunneled service. Go zero values (empty string, `0`,
`nil` slice) are `""`, `0`, `[]` here. -/
structure ProxyRule where
  id : String
  enabled : Bool
  proxyType : String
  name : String
  localIP : String
  localPort : Int
  remotePort : Int
  domains : List String
  deriving Repr, DecidableEq

/-- `UserConfig`: durable user-authored settings. -/
structure UserConfig where
  configVersion : String
  lastUpdated : String
  server : ServerConfig
  proxies : List ProxyRule
  deriving Repr, DecidableEq

/-! ## Runtime Config Generator (`generateFrpcToml`)

The Go code builds a `map[string]any` per enabled proxy whose key set depends
on the proxy type; a key that is conditionally inserted is an `Option` field
here (`none` = key absent from the map). -/

/-- One entry of the generated `proxies` list. The four unconditional keys of
the Go `item` map are plain fields; the two conditional keys are `Option`s. -/
structure FrpcProxyItem where
  name : String
  type : String
  localIP : String
  localPort : Int
  customDomains : Option (List String)
  remotePort : Option Int
  deriving Repr, DecidableEq

/-- The generated runtime configuration (`runCfg` map): `serverAddr`,
`serverPort`, the nested `auth` map, and the `proxies` list. -/
structure FrpcConfig where
  serverAddr : String
  serverPort : Int
  authMethod : String
  authToken : String
  proxies : List FrpcProxyItem
  deriving Repr, DecidableEq

/-- The loop body of `generateFrpcToml` for one enabled proxy: the base
`item` map plus, per type, `customDomains` (http) or `remotePort` (else). -/
def proxyItem (p : ProxyRule) : FrpcProxyItem :=
  if p.proxyType = "http" then
    { name := p.name, type := p.proxyType, localIP := p.localIP,
      localPort := p.localPort, customDomains := some p.domains,
      remotePort := none }
  else
    { name := p.name, type := p.proxyType, localIP := p.localIP,
      localPort := p.localPort, customDomains := none,
      remotePort := some p.remotePort }

/-- The `for _, p := range s.config.Proxies` loop: skip disabled entries
(`continue`), append `proxyItem p` otherwise. -/
def buildProxies : List ProxyRule → List FrpcProxyItem
  | [] => []
  | p :: rest =>
    if !p.enabled then buildProxies rest
    else proxyItem p :: buildProxies rest

/-- `generateFrpcToml`: fails with the Go error message when no config is
present, otherwise projects the config into the frpc runtime structure. -/
def generateFrpcToml (config : Option UserConfig) : Except String FrpcConfig :=
  match config with
  | none => .error "未发现有效配置"
  | some c =>
    .ok { serverAddr := c.server.addr
          serverPort := c.server.port
          authMethod := "token"
          authToken := c.server.token
          proxies := buildProxies c.proxies }

/-- The accumulation loop equals mapping `proxyItem` over the enabled filter. -/
theorem buildProxies_eq_filter_map (l : List ProxyRule) :
    buildProxies l = (l.filter (fun p => p.enabled)).map proxyItem := by
  induction l with
  | nil => rfl
  | cons p rest ih =>
    by_cases h : p.enabled = true <;>
      simp [buildProxies, List.filter_cons, h, ih]

/-! ## Configuration Store: TOML value model

`SaveUserConfig` serializes via `toml.Marshal` and `loadConfigFromDisk`
deserializes via `toml.Unmarshal`, driven by the struct tags on `UserConfig`
and `ProxyRule`. We model the marshalled document as a `TomlValue` tree.
`omitempty` on `remote_port` and `domains` omits the key at the Go zero value
(`0` / empty slice); unmarshalling leaves absent keys at the zero value. -/

inductive TomlValue where
  | str : String → TomlValue
  | int : Int → TomlValue
  | bool : Bool → TomlValue
  | arr : List TomlValue → TomlValue
  | table : List (String × TomlValue) → TomlValue

/-- Key lookup inside a marshalled table. -/
def lookupKey (k : String) : List (String × TomlValue) → Option TomlValue
  | [] => none
  | (k', v) :: rest => if k' = k then some v else lookupKey k rest

/-- Unmarshal a string field: absent key leaves the Go zero value `""`;
a present key of the wrong TOML type is a unmarshal error. -/
def getStr (kvs : List (String × TomlValue)) (k : String) : Option String :=
  match lookupKey k kvs with
  | none => some ""
  | some (.str s) => some s
  | some _ => none

/-- Unmarshal an integer field (zero value `0`). -/
def getInt (kvs : List (String × TomlValue)) (k : String) : Option Int :=
  match lookupKey k kvs with
  | none => some 0
  | some (.int n) => some n
  | some _ => none

/-- Unmarshal a boolean field (zero value `false`). -/
def getBool (kvs : List (String × TomlValue)) (k : String) : Option Bool :=
  match lookupKey k kvs with
  | none => some false
  | some (.bool b) => some b
  | some _ => none

/-- Unmarshal a TOML array of strings into a `[]string`. -/
def decodeStrList : List TomlValue → Option (List String)
  | [] => some []
  | .str s :: rest => (decodeStrList rest).map (fun l => s :: l)
  | _ :: _ => none

/-- Unmarshal a `[]string` field (zero value: `nil` slice, i.e. `[]`). -/
def getStrList (kvs : List (String × TomlValue)) (k : String) :
    Option (List String) :=
  match lookupKey k kvs with
  | none => some []
  | some (.arr vs) => decodeStrList vs
  | some _ => none

/-- Marshal one `ProxyRule` per its toml tags; `remote_port,omitempty` and
`domains,omitempty` drop the key at the zero value. -/
def encodeProxy (p : ProxyRule) : List (String × TomlValue) :=
  [("id", .str p.id), ("enabled", .bool p.enabled),
   ("proxy_type", .str p.proxyType), ("name", .str p.name),
   ("local_ip", .str p.localIP), ("local_port", .int p.localPort)]
  ++ (if p.remotePort = 0 then [] else [("remote_port", .int p.remotePort)])
  ++ (if p.domains = [] then [] else
        [("domains", .arr (p.domains.map TomlValue.str))])

/-- Unmarshal one `ProxyRule` from a marshalled table. -/
def decodeProxy (kvs : List (String × TomlValue)) : Option ProxyRule := do
  let id ← getStr kvs "id"
  let enabled ← getBool kvs "enabled"
  let proxyType ← getStr kvs "proxy_type"
  let name ← getStr kvs "name"
  let localIP ← getStr kvs "local_ip"
  let localPort ← getInt kvs "local_port"
  let remotePort ← getInt kvs "remote_port"
  let domains ← getStrList kvs "domains"
  pure { id, enabled, proxyType, name, localIP, localPort, remotePort,
         domains }

/-- Unmarshal the `proxies` array of tables. -/
def decodeProxies : List TomlValue → Option (List ProxyRule)
  | [] => some []
  | .table kvs :: rest => do
    let p ← decodeProxy kvs
    let ps ← decodeProxies rest
    pure (p :: ps)
  | _ :: _ => none

/-- Marshal the nested `Server` struct. -/
def encodeServer (sv : ServerConfig) : List (String × TomlValue) :=
  [("addr", .str sv.addr), ("port", .int sv.port), ("token", .str sv.token),
   ("remark", .str sv.remark), ("auto_start", .bool sv.autoStart)]

/-- Unmarshal the nested `Server` struct. -/
def decodeServer (kvs : List (String × TomlValue)) : Option ServerConfig := do
  let addr ← getStr kvs "addr"
  let port ← getInt kvs "port"
  let token ← getStr kvs "token"
  let remark ← getStr kvs "remark"
  let autoStart ← getBool kvs "auto_start"
  pure { addr, port, token, remark, autoStart }

/-- `toml.Marshal` on a `UserConfig`. -/
def encodeUserConfig (c : UserConfig) : TomlValue :=
  .table [("config_version", .str c.configVersion),
          ("last_updated", .str c.lastUpdated),
          ("server", .table (encodeServer c.server)),
          ("proxies", .arr (c.proxies.map (fun p => .table (encodeProxy p))))]

/-- `toml.Unmarshal` into a zero `UserConfig`. -/
def decodeUserConfig : TomlValue → Option UserConfig
  | .table kvs => do
    let configVersion ← getStr kvs "config_version"
    let lastUpdated ← getStr kvs "last_updated"
    let server ← match lookupKey "server" kvs with
      | none => pure { addr := "", port := 0, token := "", remark := "",
                       autoStart := false : ServerConfig }
      | some (.table skvs) => decodeServer skvs
      | some _ => none
    let proxies ← match lookupKey "proxies" kvs with
      | none => pure []
      | some (.arr vs) => decodeProxies vs
      | some _ => none
    pure { configVersion, lastUpdated, server, proxies }
  | _ => none

/-! ### Save / Load over an explicit store state

Time is modelled as a `Nat` clock value; `formatRFC3339` abstracts
`time.Now().Format(time.RFC3339)` as an injective rendering of the clock.
Filesystem write outcomes are injected as `WriteResult` parameters. -/

/-- Abstract model of `time.Now().Format(time.RFC3339)`. -/
def formatRFC3339 (t : Nat) : String := toString t

/-- The stamping step of `SaveUserConfig`: `ConfigVersion = "1.0.0"`,
`LastUpdated = time.Now().Format(time.RFC3339)`. -/
def stampConfig (cfg : UserConfig) (now : Nat) : UserConfig :=
  { cfg with configVersion := "1.0.0", lastUpdated := formatRFC3339 now }

/-- Outcome of an `os.WriteFile` call. -/
inductive WriteResult where
  | ok : WriteResult
  | ioError : String → WriteResult
  deriving Repr, DecidableEq

/-- The store-visible state: the in-memory `s.config` pointer and the logical
contents of the two files (`config.toml` in the config dir, `frpc.toml` in
the bin dir); `none` = file does not exist. -/
structure StoreState where
  config : Option UserConfig
  configFile : Option TomlValue
  frpcFile : Option FrpcConfig

/-- `SaveUserConfig`: (1) install the stamped config in memory, (2) marshal
and write `config.toml`, (3) call `generateFrpcToml`, whose result (marshal
of `runCfg` plus write of `frpc.toml`) is returned as the function's result.
`toml.Marshal` on these structures cannot fail, so the two fallible writes
are the injected `cfgWrite`/`frpcWrite` results. Returns the new state and
`some errorMessage` on failure, `none` on success. -/
def SaveUserConfig (st : StoreState) (newCfg : UserConfig) (now : Nat)
    (cfgWrite frpcWrite : WriteResult) : StoreState × Option String :=
  let stamped := stampConfig newCfg now
  let st1 := { st with config := some stamped }
  match cfgWrite with
  | .ioError msg => (st1, some ("保存文件失败: " ++ msg))
  | .ok =>
    let st2 := { st1 with configFile := some (encodeUserConfig stamped) }
    match generateFrpcToml st2.config with
    | .error e => (st2, some e)
    | .ok rc =>
      match frpcWrite with
      | .ioError msg => (st2, some msg)
      | .ok => ({ st2 with frpcFile := some rc }, none)

/-- `loadConfigFromDisk`: missing file and TOML parse failure are errors;
on success the parsed config becomes the in-memory config. -/
def loadConfigFromDisk (st : StoreState) : StoreState × Option String :=
  match st.configFile with
  | none => (st, some "stat config.toml: no such file")
  | some data =>
    match decodeUserConfig data with
    | none => (st, some "toml unmarshal error")
    | some c => ({ st with config := some c }, none)

/-! ### Marshal/unmarshal round-trip lemmas -/

theorem decodeStrList_map_str (l : List String) :
    decodeStrList (l.map TomlValue.str) = some l := by
  induction l with
  | nil => rfl
  | cons s rest ih => simp [decodeStrList, ih]

theorem decodeProxy_encodeProxy (p : ProxyRule) :
    decodeProxy (encodeProxy p) = some p := by
  obtain ⟨id, en, pt, nm, lip, lp, rp, dm⟩ := p
  by_cases hr : rp = 0 <;> by_cases hd : dm = [] <;>
    simp [decodeProxy, encodeProxy, getStr, getBool, getInt, getStrList,
          lookupKey, hr, hd, decodeStrList_map_str]

theorem decodeProxies_map_encode (l : List ProxyRule) :
    decodeProxies (l.map (fun p => TomlValue.table (encodeProxy p)))
      = some l := by
  induction l with
  | nil => rfl
  | cons p rest ih =>
    simp [decodeProxies, decodeProxy_encodeProxy, ih]

theorem decodeUserConfig_encodeUserConfig (c : UserConfig) :
    decodeUserConfig (encodeUserConfig c) = some c := by
  simp [decodeUserConfig, encodeUserConfig, getStr, getInt, getBool,
        lookupKey, decodeServer, encodeServer, decodeProxies_map_encode]

/-! ## Process Supervisor (`startFrp` / `stopFrp` / `Disconnect`)

State-passing model. The Go `sync.Mutex` is modelled explicitly as a
non-reentrant lock: `Lock()` on a mutex the calling goroutine already holds
blocks forever. `startFrp` holds `s.mu` for its whole body (acquired on
entry, released by `defer`), so a nested call into a function that takes
`s.mu` again deadlocks; a computation that deadlocks is `none`. -/

/-- An `exec.Cmd` handle: `process` is `none` until `Start` succeeds
(`cmd.Process` stays `nil` when `Start` returns an error). -/
structure Cmd where
  process : Option Nat
  deriving Repr, DecidableEq

/-- The supervisor's mutable state: the `isRunning` atomic flag, the tracked
`frpCmd` handle, and the number of live (not yet stopped) flush tickers. -/
structure SupState where
  isRunning : Bool
  frpCmd : Option Cmd
  tickers : Nat
  deriving Repr, DecidableEq

/-- The Go guard `s.frpCmd != nil && s.frpCmd.Process != nil`. -/
def cmdLive : Option Cmd → Bool
  | none => false
  | some c => c.process.isSome

/-- Result of a `sync.Mutex.Lock()` call. -/
inductive LockResult where
  | acquired : LockResult
  | blocksForever : LockResult
  deriving Repr, DecidableEq

/-- Go `sync.Mutex` is not reentrant: locking a mutex the calling goroutine
already holds blocks forever. -/
def lockMutex (heldByCaller : Bool) : LockResult :=
  if heldByCaller then .blocksForever else .acquired

/-- `stopFrp`: acquires `s.mu`; returns without killing when no live handle
is tracked; otherwise issues `kill -9 <pid>` (error ignored) and clears the
running flag. It never clears `frpCmd` (the exit-waiter does that).
`none` = the call never returns (deadlocked on `s.mu.Lock()`). -/
def stopFrp (muHeldByCaller : Bool) (st : SupState) : Option SupState :=
  match lockMutex muHeldByCaller with
  | .blocksForever => none
  | .acquired =>
    if !(cmdLive st.frpCmd) then some st
    else some { st with isRunning := false }

/-- Observable steps of a `startFrp` run, in execution order. -/
inductive Action where
  | prepareEnv : Action
  | generateConfig : Action
  | stopOldInstance : Action
  | createTicker : Action
  | spawnProcess : Action
  | emitStart : Action
  deriving Repr, DecidableEq

/-- Outcome reported by a completed `startFrp` run. -/
inductive StartOutcome where
  | alreadyRunning : StartOutcome
  | prepareFailed : StartOutcome
  | generateFailed : StartOutcome
  | spawnFailed : StartOutcome
  | started : StartOutcome
  deriving Repr, DecidableEq

/-- Injected environment outcomes for one `startFrp` run: whether
`prepareFrpEnv`, `generateFrpcToml` and `cmd.Start()` succeed, and the pid
the OS assigns on a successful spawn. -/
structure StartEnv where
  prepareOk : Bool
  generateOk : Bool
  spawnOk : Bool
  pid : Nat
  deriving Repr, DecidableEq

/-- `startFrp`, executed with `s.mu` held for the whole body. Step order as
in the source: running-guard, `prepareFrpEnv`, `generateFrpcToml`, stop-old-
instance guard (calling `stopFrp`, which re-locks the mutex this body
holds), reset flag, create `exec.Cmd`, create the 500ms flush ticker (one
`time.NewTicker` per call, stopped only by `ctx.Done()`), `cmd.Start()`,
then emit "start" and set `isRunning`. Returns `none` when the run
deadlocks, otherwise the new state, the outcome, and the action trace. -/
def startFrp (st : SupState) (env : StartEnv) :
    Option (SupState × StartOutcome × List Action) :=
  if st.isRunning then some (st, .alreadyRunning, [])
  else if !env.prepareOk then some (st, .prepareFailed, [.prepareEnv])
  else if !env.generateOk then
    some (st, .generateFailed, [.prepareEnv, .generateConfig])
  else
    let stopStep : Option (SupState × List Action) :=
      if cmdLive st.frpCmd then
        match stopFrp true st with
        | none => none
        | some st' =>
          some (st', [.prepareEnv, .generateConfig, .stopOldInstance])
      else some (st, [.prepareEnv, .generateConfig])
    match stopStep with
    | none => none
    | some (st1, tr) =>
      let st2 := { st1 with isRunning := false,
                            frpCmd := some { process := none },
                            tickers := st1.tickers + 1 }
      if !env.spawnOk then
        some (st2, .spawnFailed, tr ++ [.createTicker, .spawnProcess])
      else
        some ({ st2 with frpCmd := some { process := some env.pid },
                         isRunning := true },
              .started, tr ++ [.createTicker, .spawnProcess, .emitStart])

/-- The exit-waiter goroutine body after `cmd.Wait()` returns: under `s.mu`,
clear the handle and reset the running flag (then emit the stop event). -/
def waiterCleanup (st : SupState) : SupState :=
  { st with frpCmd := none, isRunning := false }

/-- Top-level lifetime context cancellation (`s.ctx.Done()`): every flush
goroutine stops its ticker. This is the only place a ticker is stopped. -/
def ctxDone (st : SupState) : SupState :=
  { st with tickers := 0 }

/-- The `ServiceStatus` struct returned to the frontend. -/
structure ServiceStatusM where
  success : Bool
  isRunning : Bool
  config : Option UserConfig
  message : String
  deriving Repr, DecidableEq

/-- Outcome of `s.frpCmd.Process.Kill()`. -/
inductive KillResult where
  | ok : KillResult
  | failed : String → KillResult
  deriving Repr, DecidableEq

/-- `Disconnect`: no-op when not running; otherwise, with a live handle, a
failed `Kill` is returned to the caller with the running flag untouched,
and only on the fall-through (kill confirmed, or no live handle) is the
running flag cleared and the disconnect log emitted. The returned status's
`Config` field is the Go zero value `nil`. -/
def Disconnect (st : SupState) (kr : KillResult) : SupState × ServiceStatusM :=
  if !st.isRunning then
    (st, { success := true, isRunning := false, config := none,
           message := "服务本就处于停止状态" })
  else if cmdLive st.frpCmd then
    match kr with
    | .failed msg =>
      (st, { success := false, isRunning := true, config := none,
             message := "停止进程失败: " ++ msg })
    | .ok =>
      ({ st with isRunning := false },
       { success := true, isRunning := false, config := none,
         message := "服务已断开" })
  else
    ({ st with isRunning := false },
     { success := true, isRunning := false, config := none,
       message := "服务已断开" })

/-! ## Log Aggregator (`flushLogs` / `emitLog`) -/

/-- The stream readers' append: `s.logBuffer = append(s.logBuffer, line)`. -/
def appendLog (buf : List String) (line : String) : List String :=
  buf ++ [line]

/-- `emitLog`: returns early (no event) on an empty argument list, otherwise
publishes the lines as one `frp-logs` event. `some batch` = one event with
payload `batch`, `none` = no event published. -/
def emitLog (logs : List String) : Option (List String) :=
  if logs.length = 0 then none else some logs

/-- `flushLogs`: under `logMu`, return without publishing when the buffer is
empty; otherwise copy the buffer, truncate the live buffer to length zero,
and pass the copy to `emitLog`. Returns (published event, new buffer). -/
def flushLogs (buf : List String) : Option (List String) × List String :=
  if buf.length = 0 then (none, buf)
  else
    let logsToSend := buf
    (emitLog logsToSend, [])

/-! ## Helper lemmas -/

/-- Buffer built by repeated `appendLog` from `acc` is `acc ++ lines`. -/
theorem foldl_appendLog (lines : List String) (acc : List String) :
    lines.foldl appendLog acc = acc ++ lines := by
  induction lines generalizing acc with
  | nil => simp
  | cons l rest ih => simp [List.foldl_cons, appendLog, ih]

/-! ## Claim theorems -/

/-- C1: for every `UserConfig` with N enabled and M disabled proxies,
`generateFrpcToml` emits exactly N proxy entries — the `proxyItem` images of
the enabled rules in their original relative order — and disabled entries do
not appear in the generated structure at all. -/
theorem generateFrpcToml_enabled_projection (cfg : UserConfig) :
    ∃ rc : FrpcConfig, generateFrpcToml (some cfg) = .ok rc ∧
      rc.proxies = (cfg.proxies.filter (fun p => p.enabled)).map proxyItem ∧
      rc.proxies.length = cfg.proxies.countP (fun p => p.enabled) := by
  refine ⟨_, rfl, ?_, ?_⟩
  · simp [buildProxies_eq_filter_map]
  · simp [buildProxies_eq_filter_map, List.countP_eq_length_filter]

/-- C2: every enabled proxy rule yields a generated entry; for
`proxyType = "http"` that entry carries `customDomains` (the rule's domains)
and no `remotePort`, and for `"tcp"`/`"udp"` it carries `remotePort` and no
`customDomains`. -/
theorem generateFrpcToml_type_fields (cfg : UserConfig) (rc : FrpcConfig)
    (p : ProxyRule) (hrc : generateFrpcToml (some cfg) = .ok rc)
    (hp : p ∈ cfg.proxies) (hen : p.enabled = true) :
    proxyItem p ∈ rc.proxies ∧
    (p.proxyType = "http" →
      (proxyItem p).customDomains = some p.domains ∧
      (proxyItem p).remotePort = none) ∧
    ((p.proxyType = "tcp" ∨ p.proxyType = "udp") →
      (proxyItem p).remotePort = some p.remotePort ∧
      (proxyItem p).customDomains = none) := by
  have hrc' : rc.proxies = buildProxies cfg.proxies := by
    simp [generateFrpcToml] at hrc
    rw [← hrc]
  refine ⟨?_, ?_, ?_⟩
  · rw [hrc', buildProxies_eq_filter_map]
    exact List.mem_map_of_mem proxyItem (List.mem_filter.mpr ⟨hp, hen⟩)
  · intro hh
    simp [proxyItem, hh]
  · rintro (ht | ht) <;> rw [proxyItem] <;> simp [ht]

/-- C2 witness: a concrete config with one http and one tcp rule. -/
def c2cfg : UserConfig :=
  { configVersion := "", lastUpdated := ""
    server := { addr := "a.example", port := 7000, token := "t",
                remark := "", autoStart := false }
    proxies :=
      [{ id := "1", enabled := true, proxyType := "http", name := "w",
         localIP := "127.0.0.1", localPort := 80, remotePort := 0,
         domains := ["w.example"] },
       { id := "2", enabled := true, proxyType := "tcp", name := "s",
         localIP := "127.0.0.1", localPort := 22, remotePort := 6000,
         domains := [] }] }

/-- The concrete http rule of `c2cfg`. -/
def c2http : ProxyRule :=
  { id := "1", enabled := true, proxyType := "http", name := "w",
    localIP := "127.0.0.1", localPort := 80, remotePort := 0,
    domains := ["w.example"] }

/-- The runtime config generated from `c2cfg`. -/
def c2rc : FrpcConfig :=
  { serverAddr := "a.example", serverPort := 7000, authMethod := "token",
    authToken := "t", proxies := buildProxies c2cfg.proxies }

theorem generateFrpcToml_type_fields_witness :
    proxyItem c2http ∈ c2rc.proxies ∧
    (c2http.proxyType = "http" →
      (proxyItem c2http).customDomains = some c2http.domains ∧
      (proxyItem c2http).remotePort = none) ∧
    ((c2http.proxyType = "tcp" ∨ c2http.proxyType = "udp") →
      (proxyItem c2http).remotePort = some c2http.remotePort ∧
      (proxyItem c2http).customDomains = none) :=
  generateFrpcToml_type_fields c2cfg c2rc c2http (by rfl)
    (by simp [c2cfg, c2http]) (by rfl)

/-- A config whose single enabled rule leaves `localIP` absent (empty). -/
def c9cfg : UserConfig :=
  { configVersion := "", lastUpdated := ""
    server := { addr := "a.example", port := 7000, token := "t",
                remark := "", autoStart := false }
    proxies :=
      [{ id := "1", enabled := true, proxyType := "tcp", name := "s",
         localIP := "", localPort := 22, remotePort := 6000,
         domains := [] }] }

/-- C9 counterexample: for a rule with absent (empty) `localIP`, the
generated entry's `localIP` is the empty string, not the loopback address —
`generateFrpcToml` applies no default. -/
theorem generateFrpcToml_no_loopback_default :
    generateFrpcToml (some c9cfg) =
      .ok { serverAddr := "a.example", serverPort := 7000,
            authMethod := "token", authToken := "t",
            proxies := [{ name := "s", type := "tcp", localIP := "",
                          localPort := 22, customDomains := none,
                          remotePort := some 6000 }] } ∧
    ("" : String) ≠ "127.0.0.1" := by
  constructor
  · rfl
  · decide

/-- C9 amended: the generated entry's `localIP` is the rule's `localIP`
verbatim — in particular an absent (empty) `localIP` stays empty in the
generated structure; the loopback default is applied by the UI layer when
creating rules, not by the generator. -/
theorem generateFrpcToml_localIP_passthrough (cfg : UserConfig)
    (rc : FrpcConfig) (hrc : generateFrpcToml (some cfg) = .ok rc) :
    rc.proxies.map (fun it => it.localIP) =
      (cfg.proxies.filter (fun p => p.enabled)).map
        (fun p => p.localIP) := by
  have hrc' : rc.proxies = buildProxies cfg.proxies := by
    simp [generateFrpcToml] at hrc
    rw [← hrc]
  rw [hrc', buildProxies_eq_filter_map, List.map_map]
  refine List.map_congr_left (fun p _ => ?_)
  by_cases h : p.proxyType = "http" <;> simp [proxyItem, h]

theorem generateFrpcToml_localIP_passthrough_witness :
    c2rc.proxies.map (fun it => it.localIP) =
      (c2cfg.proxies.filter (fun p => p.enabled)).map
        (fun p => p.localIP) :=
  generateFrpcToml_localIP_passthrough c2cfg c2rc (by rfl)

/-- C3: saving `cfg` and loading it back yields exactly the stamped config:
every field of `cfg` is preserved except `configVersion` (set to the current
schema version `"1.0.0"`) and `lastUpdated` (set to the save-time clock
value, which is `≥` the pre-save time by clock monotonicity). This holds
whatever the outcome `w` of the subsequent `frpc.toml` write. -/
theorem save_load_roundtrip (st : StoreState) (cfg : UserConfig)
    (w : WriteResult) (pre now : Nat) (hclock : pre ≤ now) :
    (loadConfigFromDisk (SaveUserConfig st cfg now .ok w).1).2 = none ∧
    (loadConfigFromDisk (SaveUserConfig st cfg now .ok w).1).1.config =
      some (stampConfig cfg now) ∧
    (stampConfig cfg now).server = cfg.server ∧
    (stampConfig cfg now).proxies = cfg.proxies ∧
    (stampConfig cfg now).configVersion = "1.0.0" ∧
    (stampConfig cfg now).lastUpdated = formatRFC3339 now ∧
    pre ≤ now := by
  cases w <;>
    simp [SaveUserConfig, loadConfigFromDisk, generateFrpcToml,
          decodeUserConfig_encodeUserConfig, stampConfig, hclock]

/-- Sample config for the C3 witness. -/
def c3cfg : UserConfig :=
  { configVersion := "0.9", lastUpdated := "old"
    server := { addr := "srv", port := 7000, token := "tk",
                remark := "r", autoStart := true }
    proxies :=
      [{ id := "x", enabled := false, proxyType := "udp", name := "u",
         localIP := "10.0.0.2", localPort := 53, remotePort := 5353,
         domains := [] }] }

/-- Empty file system and memory. -/
def emptyStore : StoreState :=
  { config := none, configFile := none, frpcFile := none }

theorem save_load_roundtrip_witness :
    (loadConfigFromDisk (SaveUserConfig emptyStore c3cfg 5 .ok .ok).1).2
        = none ∧
    (loadConfigFromDisk (SaveUserConfig emptyStore c3cfg 5 .ok .ok).1).1.config
        = some (stampConfig c3cfg 5) ∧
    (stampConfig c3cfg 5).server = c3cfg.server ∧
    (stampConfig c3cfg 5).proxies = c3cfg.proxies ∧
    (stampConfig c3cfg 5).configVersion = "1.0.0" ∧
    (stampConfig c3cfg 5).lastUpdated = formatRFC3339 5 ∧
    3 ≤ 5 :=
  save_load_roundtrip emptyStore c3cfg .ok 3 5 (by decide)

/-- C10: `SaveUserConfig` is not atomic across its two writes — when the
`frpc.toml` write fails, it returns an error even though the stamped new
config is already the in-memory current config and already persisted to
`config.toml`. -/
theorem saveUserConfig_nonatomic (st : StoreState) (newCfg : UserConfig)
    (now : Nat) (msg : String) :
    (SaveUserConfig st newCfg now .ok (.ioError msg)).2 = some msg ∧
    (SaveUserConfig st newCfg now .ok (.ioError msg)).1.config =
      some (stampConfig newCfg now) ∧
    (SaveUserConfig st newCfg now .ok (.ioError msg)).1.configFile =
      some (encodeUserConfig (stampConfig newCfg now)) := by
  simp [SaveUserConfig, generateFrpcToml]

/-- A supervisor state with a live tracked subprocess (pid 42). -/
def runningSup : SupState :=
  { isRunning := true, frpCmd := some { process := some 42 }, tickers := 1 }

/-- All-success environment for a `startFrp` run. -/
def envOk : StartEnv :=
  { prepareOk := true, generateOk := true, spawnOk := true, pid := 43 }

/-- C4: the state reached right after `Disconnect` successfully kills the
subprocess (before the exit-waiter clears the handle) has `isRunning =
false` with `frpCmd` still tracked and live; invoking `startFrp` there
reaches the stop-old-instance branch, which calls `stopFrp` while
`startFrp`'s body already holds `s.mu` — a non-reentrant `sync.Mutex` —
so the Start deadlocks (`none`) instead of stopping the old instance and
proceeding. -/
theorem startFrp_reconfigure_deadlocks :
    (Disconnect runningSup .ok).1.isRunning = false ∧
    cmdLive (Disconnect runningSup .ok).1.frpCmd = true ∧
    startFrp (Disconnect runningSup .ok).1 envOk = none := by
  decide

/-- C5: whenever preparing the environment, generating the runtime config,
or spawning fails during a Start from a stable state (not running, no live
handle), `startFrp` completes with a non-`started` outcome, the running
flag stays false, no live handle is left referenced, and after a failed
runtime-config write no spawn is attempted in the same Start. -/
theorem startFrp_failure_aborts (st : SupState) (env : StartEnv)
    (hrun : st.isRunning = false) (hlive : cmdLive st.frpCmd = false)
    (hfail : env.prepareOk = false ∨ env.generateOk = false ∨
             env.spawnOk = false) :
    ∃ st' out tr, startFrp st env = some (st', out, tr) ∧
      out ≠ .started ∧
      st'.isRunning = false ∧
      cmdLive st'.frpCmd = false ∧
      (env.generateOk = false → Action.spawnProcess ∉ tr) := by
  obtain ⟨pOk, gOk, sOk, pid⟩ := env
  cases pOk with
  | false =>
    exact ⟨st, .prepareFailed, [.prepareEnv],
      by simp [startFrp, hrun], by simp, hrun, hlive, fun _ => by simp⟩
  | true =>
    cases gOk with
    | false =>
      exact ⟨st, .generateFailed, [.prepareEnv, .generateConfig],
        by simp [startFrp, hrun], by simp, hrun, hlive, fun _ => by simp⟩
    | true =>
      cases sOk with
      | true => simp at hfail
      | false =>
        refine ⟨{ isRunning := false, frpCmd := some { process := none },
                  tickers := st.tickers + 1 }, .spawnFailed,
                [.prepareEnv, .generateConfig, .createTicker,
                 .spawnProcess],
                ?_, by simp, rfl, by simp [cmdLive], ?_⟩
        · simp [startFrp, hrun, hlive]
        · intro h
          simp at h

theorem startFrp_failure_aborts_witness :
    ∃ st' out tr,
      startFrp { isRunning := false, frpCmd := none, tickers := 0 }
          { prepareOk := true, generateOk := false, spawnOk := true,
            pid := 7 } = some (st', out, tr) ∧
      out ≠ .started ∧
      st'.isRunning = false ∧
      cmdLive st'.frpCmd = false ∧
      (({ prepareOk := true, generateOk := false, spawnOk := true,
          pid := 7 } : StartEnv).generateOk = false →
        Action.spawnProcess ∉ tr) :=
  startFrp_failure_aborts
    { isRunning := false, frpCmd := none, tickers := 0 }
    { prepareOk := true, generateOk := false, spawnOk := true, pid := 7 }
    rfl rfl (Or.inr (Or.inl rfl))

/-- C6: on a running supervisor with a live tracked handle, a failed kill is
returned to the caller (`Success = false`, the error inside the message)
with the running flag untouched; the flag is cleared on a confirmed
successful kill, and the asynchronous exit-waiter also clears it. -/
theorem disconnect_kill_failure_keeps_running (st : SupState) (msg : String)
    (hrun : st.isRunning = true) (hlive : cmdLive st.frpCmd = true) :
    Disconnect st (.failed msg) =
      (st, { success := false, isRunning := true, config := none,
             message := "停止进程失败: " ++ msg }) ∧
    (Disconnect st .ok).1.isRunning = false ∧
    (waiterCleanup st).isRunning = false := by
  refine ⟨?_, ?_, rfl⟩ <;> simp [Disconnect, hrun, hlive, waiterCleanup]

theorem disconnect_kill_failure_keeps_running_witness :
    Disconnect runningSup (.failed "operation not permitted") =
      (runningSup,
       { success := false, isRunning := true, config := none,
         message := "停止进程失败: " ++ "operation not permitted" }) ∧
    (Disconnect runningSup .ok).1.isRunning = false ∧
    (waiterCleanup runningSup).isRunning = false :=
  disconnect_kill_failure_keeps_running runningSup
    "operation not permitted" rfl rfl

/-- Initial supervisor state: nothing running, no handle, no tickers. -/
def sup0 : SupState := { isRunning := false, frpCmd := none, tickers := 0 }

/-- C7 counterexample: two successful Start calls over the process's life
(the first run's subprocess exiting in between, observed by the
exit-waiter) leave two live flush tickers — `startFrp` creates a fresh
`time.NewTicker` per call and nothing but the top-level context stops
them, so one ticker is leaked per Start call. -/
theorem startFrp_two_starts_two_tickers :
    (startFrp sup0 envOk).map (fun r => r.1.tickers) = some 1 ∧
    ((startFrp sup0 envOk).bind
        (fun r => startFrp (waiterCleanup r.1) envOk)).map
      (fun r => r.1.tickers) = some 2 ∧
    ¬ (2 ≤ 1) := by
  decide

/-- Complete case analysis of a `startFrp` run that returned: either it
bailed out on a guard or a failed step with the state untouched, or it
reached the flush-timer setup and spawn, creating exactly one new ticker. -/
theorem startFrp_spec (st : SupState) (env : StartEnv) (st' : SupState)
    (out : StartOutcome) (tr : List Action)
    (h : startFrp st env = some (st', out, tr)) :
    (st' = st ∧
      (out = .alreadyRunning ∨ out = .prepareFailed ∨
       out = .generateFailed)) ∨
    (st'.tickers = st.tickers + 1 ∧
      (out = .spawnFailed ∨ out = .started)) := by
  unfold startFrp at h
  by_cases hr : st.isRunning = true
  · simp [hr] at h
    exact Or.inl ⟨h.1.symm, Or.inl h.2.1.symm⟩
  · simp [hr] at h
    by_cases hp : env.prepareOk = true
    · simp [hp] at h
      by_cases hg : env.generateOk = true
      · simp [hg] at h
        by_cases hl : cmdLive st.frpCmd = true
        · simp [hl, stopFrp, lockMutex] at h
        · simp [hl] at h
          by_cases hs : env.spawnOk = true
          · simp [hs] at h
            refine Or.inr ⟨?_, Or.inr h.2.1.symm⟩
            rw [← h.1]
          · simp [hs] at h
            refine Or.inr ⟨?_, Or.inl h.2.1.symm⟩
            rw [← h.1]
      · simp [hg] at h
        exact Or.inl ⟨h.1.symm, Or.inr (Or.inr h.2.1.symm)⟩
    · simp [hp] at h
      exact Or.inl ⟨h.1.symm, Or.inr (Or.inl h.2.1.symm)⟩

/-- The state after the first successful Start from `sup0` under `envOk`. -/
def sup1 : SupState :=
  { isRunning := true, frpCmd := some { process := some 43 }, tickers := 1 }

/-- C7 amended: every `startFrp` call that reaches the flush-timer setup
(outcome `started` or `spawnFailed`) creates exactly one additional live
ticker, calls aborted earlier create none, and tickers are stopped only by
the top-level lifetime context ending (`ctxDone`) — neither `stopFrp` nor
`Disconnect` nor the exit-waiter stops one. Hence k such Starts leave k
live tickers, not at most one. -/
theorem startFrp_ticker_accounting (st : SupState) (env : StartEnv)
    (st' : SupState) (out : StartOutcome) (tr : List Action)
    (h : startFrp st env = some (st', out, tr)) :
    ((out = .started ∨ out = .spawnFailed) →
      st'.tickers = st.tickers + 1) ∧
    ((out = .alreadyRunning ∨ out = .prepareFailed ∨
      out = .generateFailed) → st'.tickers = st.tickers) ∧
    (ctxDone st').tickers = 0 ∧
    (∀ kr, ((Disconnect st' kr).1).tickers = st'.tickers) ∧
    (waiterCleanup st').tickers = st'.tickers ∧
    (∀ st'', stopFrp false st' = some st'' → st''.tickers = st'.tickers)
    := by
  refine ⟨?_, ?_, rfl, ?_, rfl, ?_⟩
  · intro hout
    rcases startFrp_spec st env st' out tr h with ⟨_, hcase⟩ | ⟨ht, _⟩
    · rcases hout with rfl | rfl <;> simp at hcase
    · exact ht
  · intro hout
    rcases startFrp_spec st env st' out tr h with ⟨rfl, _⟩ | ⟨_, hcase⟩
    · rfl
    · rcases hout with rfl | rfl | rfl <;> simp at hcase
  · intro kr
    cases hrv : st'.isRunning <;> cases hlv : cmdLive st'.frpCmd <;>
      rcases kr with _ | msg <;> simp [Disconnect, hrv, hlv]
  · intro st'' hstop
    cases hlv : cmdLive st'.frpCmd <;>
      simp [stopFrp, lockMutex, hlv] at hstop <;>
      rw [← hstop]

theorem startFrp_ticker_accounting_witness :
    ((StartOutcome.started = .started ∨
        StartOutcome.started = .spawnFailed) →
      sup1.tickers = sup0.tickers + 1) ∧
    ((StartOutcome.started = .alreadyRunning ∨
      StartOutcome.started = .prepareFailed ∨
      StartOutcome.started = .generateFailed) →
      sup1.tickers = sup0.tickers) ∧
    (ctxDone sup1).tickers = 0 ∧
    (∀ kr, ((Disconnect sup1 kr).1).tickers = sup1.tickers) ∧
    (waiterCleanup sup1).tickers = sup1.tickers ∧
    (∀ st'', stopFrp false sup1 = some st'' →
      st''.tickers = sup1.tickers) :=
  startFrp_ticker_accounting sup0 envOk sup1 .started
    [.prepareEnv, .generateConfig, .createTicker, .spawnProcess,
     .emitStart]
    (by rfl)

/-- C8: flushing a buffer built by appending `lines` since the previous
flush publishes nothing when no line was appended, and otherwise publishes
exactly one batch event carrying all the lines in append order, leaving the
live buffer empty. -/
theorem flushLogs_batch (lines : List String) :
    (lines = [] →
      flushLogs (lines.foldl appendLog []) = (none, [])) ∧
    (lines ≠ [] →
      flushLogs (lines.foldl appendLog []) = (some lines, [])) := by
  constructor
  · intro h
    subst h
    rfl
  · intro h
    rw [foldl_appendLog, List.nil_append]
    have hlen : lines.length ≠ 0 := fun hc => h (List.eq_nil_of_length_eq_zero hc)
    simp [flushLogs, emitLog, hlen]

theorem flushLogs_batch_witness :
    flushLogs (([] : List String).foldl appendLog []) = (none, []) ∧
    flushLogs ((["conn ok", "tunnel up"] : List String).foldl
      appendLog []) = (some ["conn ok", "tunnel up"], []) :=
  ⟨(flushLogs_batch []).1 rfl,
   (flushLogs_batch ["conn ok", "tunnel up"]).2 (by simp)⟩

end Mole
